import Mathlib

/-!
# Recipe favourites, aggregation and filtering

A shallow embedding of the screen logic of the recipe application
(`src/screens/HomeScreen.js`, `FavoritesScreen.js`, `RecipeDetailScreen.js`,
`AddRecipeScreen.js`).

JavaScript values are modelled as follows.

* A string-valued record field that may be absent (`undefined`/`null`) is an
  `Option String`; it is *truthy* exactly when it is a non-empty string.
* `a || b` is `jsOr a b`; `a || b || ''` ends in `jsOrStr`.
* React state is an explicit record; an asynchronous handler is a function from
  the state (and the outcome of each awaited call) to the next state.
* A key of `AsyncStorage` is a `Stored` value: what `getItem` resolves to,
  together with what `JSON.parse` makes of it.
* The library methods `toLowerCase` and `trim` are parameters of the
  definitions that call them.
-/

namespace Recipes

/-! ## Data model -/

/-- One row of an explicit ingredient list (`{name, measure}`). -/
structure Ingredient where
  name : String := ""
  measure : String := ""
deriving DecidableEq, Repr

/-- A recipe record as the screens receive it: the union of the remote
catalogue fields (`idMeal`, `strMeal`, ...) and the locally authored fields
(`id`, `name`, ...). A field that is absent is `none`. -/
structure Recipe where
  idMeal : Option String := none
  id : Option String := none
  strMeal : Option String := none
  name : Option String := none
  strCategory : Option String := none
  category : Option String := none
  strArea : Option String := none
  area : Option String := none
  strInstructions : Option String := none
  instructions : Option String := none
  strMealThumb : Option String := none
  imageUri : Option String := none
  ingredients : Option (List Ingredient) := none
  isCustom : Option Bool := none
  /-- The fields `strIngredient1`, `strIngredient2`, ... in index order. -/
  strIngredient : List (Option String) := []
  /-- The fields `strMeasure1`, `strMeasure2`, ... in index order. -/
  strMeasure : List (Option String) := []
deriving DecidableEq, Repr

/-- The numbered field `fields_i` (`recipe[name + i]`), `i` counted from 1; a
position past the end of the list is an absent field. -/
def numbered (fields : List (Option String)) (i : Nat) : Option String :=
  fields.getD (i - 1) none

/-- JavaScript truthiness of an optional string: present and non-empty. -/
def truthy : Option String → Bool
  | some s => !(s == "")
  | none => false

/-- The expression `a || b` on optional strings: `a` when truthy, else `b`. -/
def jsOr (a b : Option String) : Option String :=
  if truthy a then a else b

/-- The expression `a || d` where `d` is a string literal. -/
def jsOrStr (a : Option String) (d : String) : String :=
  match a with
  | some s => if s == "" then d else s
  | none => d

/-- The list key `item.idMeal || item.id` (`keyExtractor`, HomeScreen.js:275):
the identity of a record. -/
def keyExtractor (item : Recipe) : Option String :=
  jsOr item.idMeal item.id

/-- What one `AsyncStorage` key holds, as seen through `getItem` and
`JSON.parse`. The application only ever writes `JSON.stringify` of an array
of records, which parses back to the same array. -/
inductive Stored where
  /-- The key is absent: `getItem` resolves to `null`. -/
  | missing
  /-- The key holds the empty string, which is falsy. -/
  | empty
  /-- The key holds a non-empty string on which `JSON.parse` throws. -/
  | malformed
  /-- The key holds a non-empty string that parses to this array. -/
  | list (l : List Recipe)
deriving DecidableEq, Repr

/-- The outcome of `await AsyncStorage.getItem(key)`. -/
inductive GetItem where
  /-- The promise rejects. -/
  | rejected
  /-- The promise resolves with the content of the key. -/
  | resolved (v : Stored)
deriving DecidableEq, Repr

/-- The outcome of `await fetch(url)` followed by `await response.json()`. -/
inductive Fetch where
  /-- The call `fetch` throws (network failure). -/
  | throws
  /-- The call `response.json()` throws: the body cannot be read. -/
  | unreadable
  /-- The body parses to `data`, with `data.meals` as given (`null` is `none`). -/
  | ok (meals : Option (List Recipe))
deriving DecidableEq, Repr

/-- The method `s.includes(t)`: `t` occurs in `s` as a contiguous run. For
well-formed strings a run of UTF-16 code units of `t` in `s` is a run of its
code points, which is what is compared here. -/
def includes (s t : String) : Bool :=
  s.data.tails.any fun u => t.data.isPrefixOf u

/-- The expression `[...new Set(xs)]`: the values of `xs` in order of first
occurrence, each once. -/
def newSet (xs : List String) : List String :=
  xs.foldl (fun seen x => if x ∈ seen then seen else seen ++ [x]) []

/-- The value of `recipe.strCategory || recipe.category` as used for the
category facets (HomeScreen.js:76-77, FavoritesScreen.js:61-62). -/
def uniqueCategories (allRecipes : List Recipe) : List String :=
  newSet <|
    (allRecipes.filter fun recipe => truthy (jsOr recipe.strCategory recipe.category)).map
      fun recipe => (jsOr recipe.strCategory recipe.category).getD ""

/-- The result list of the filter effect (HomeScreen.js:93-107,
FavoritesScreen.js:79-93). `toLowerCase` is `String.prototype.toLowerCase`. -/
def filterResults (toLowerCase : String → String) (recipes : List Recipe)
    (searchTerm selectedCategory : String) : List Recipe :=
  let results := recipes
  let results :=
    if searchTerm ≠ "" then
      results.filter fun recipe =>
        let title := jsOrStr (jsOr recipe.strMeal recipe.name) ""
        includes (toLowerCase title) (toLowerCase searchTerm)
    else results
  let results :=
    if selectedCategory ≠ "All" then
      results.filter fun recipe =>
        let category := jsOrStr (jsOr recipe.strCategory recipe.category) ""
        category == selectedCategory
    else results
  results

/-- Two records match when both have a non-empty `idMeal` and these are equal,
or both have a non-empty `id` and these are equal. -/
def Matches (f r : Recipe) : Prop :=
  (f.idMeal ≠ none ∧ f.idMeal ≠ some "" ∧ f.idMeal = r.idMeal) ∨
  (f.id ≠ none ∧ f.id ≠ some "" ∧ f.id = r.id)

instance (f r : Recipe) : Decidable (Matches f r) := by
  unfold Matches; infer_instance

/-- A record has an identity when its `idMeal` or its `id` is a non-empty
string. -/
def HasIdentity (r : Recipe) : Prop :=
  (r.idMeal ≠ none ∧ r.idMeal ≠ some "") ∨ (r.id ≠ none ∧ r.id ≠ some "")

instance (r : Recipe) : Decidable (HasIdentity r) := by
  unfold HasIdentity; infer_instance

/-- A record of the remote catalogue schema: a non-empty `idMeal` and no `id`. -/
def IsRemote (r : Recipe) : Prop :=
  (r.idMeal ≠ none ∧ r.idMeal ≠ some "") ∧ (r.id = none ∨ r.id = some "")

/-- A record of the custom schema: a non-empty `id` and no `idMeal`. -/
def IsCustom (r : Recipe) : Prop :=
  (r.id ≠ none ∧ r.id ≠ some "") ∧ (r.idMeal = none ∨ r.idMeal = some "")

instance (r : Recipe) : Decidable (IsRemote r) := by
  unfold IsRemote; infer_instance

instance (r : Recipe) : Decidable (IsCustom r) := by
  unfold IsCustom; infer_instance

/-- First-non-empty-of: the first of the given fields that is present and
non-empty, and the empty string when there is none. -/
def firstNonEmpty : List (Option String) → String
  | [] => ""
  | some s :: rest => if s = "" then firstNonEmpty rest else s
  | none :: rest => firstNonEmpty rest

/-! ## HomeScreen.js -/

namespace HomeScreen

/-- The React state of the home screen (HomeScreen.js:40-46). -/
structure State where
  recipes : List Recipe
  filteredRecipes : List Recipe
  searchTerm : String
  loading : Bool
  favorites : List Recipe
  categories : List String
  selectedCategory : String
deriving DecidableEq, Repr

/-- The initial values given to `useState` (HomeScreen.js:40-46). -/
def init : State :=
  { recipes := [], filteredRecipes := [], searchTerm := "", loading := true,
    favorites := [], categories := [], selectedCategory := "All" }

/-- Membership test `isFavorite` (HomeScreen.js:112-117). -/
def isFavorite (favorites : List Recipe) (recipe : Recipe) : Bool :=
  favorites.any fun fav =>
    (truthy fav.idMeal && truthy recipe.idMeal && (fav.idMeal == recipe.idMeal)) ||
    (truthy fav.id && truthy recipe.id && (fav.id == recipe.id))

/-- The list `updatedFavorites` that `toggleFavorite` computes before writing
it (HomeScreen.js:121-131). -/
def updatedFavorites (favorites : List Recipe) (recipe : Recipe) : List Recipe :=
  if isFavorite favorites recipe then
    favorites.filter fun fav =>
      !(truthy fav.idMeal && truthy recipe.idMeal && (fav.idMeal == recipe.idMeal)) &&
      !(truthy fav.id && truthy recipe.id && (fav.id == recipe.id))
  else
    favorites ++ [recipe]

/-- The handler `toggleFavorite` (HomeScreen.js:119-141). `setItemOk` says
whether `AsyncStorage.setItem` resolves; when it rejects, control passes to the
`catch` block, which only logs, so `setFavorites` is not reached. The first
component is the list written under `favoriteRecipes`, if any. -/
def toggleFavorite (setItemOk : Bool) (s : State) (recipe : Recipe) :
    Option (List Recipe) × State :=
  let updated := updatedFavorites s.favorites recipe
  if setItemOk then
    (some updated, { s with favorites := updated })
  else
    (none, s)

/-- The mount effect `fetchRecipesAndCategories` (HomeScreen.js:50-90).
Each `await` that rejects and each `JSON.parse` that throws passes control to
the `catch` block, which only logs; the `finally` block then clears `loading`.
State set before the failure stays set. -/
def fetchRecipesAndCategories (favoriteRecipes : GetItem) (response : Fetch)
    (customRecipes : GetItem) (s : State) : State :=
  let done (s : State) : State := { s with loading := false }
  match favoriteRecipes with
  | .rejected => done s
  | .resolved .malformed => done s
  | .resolved storedFavorites =>
    let s : State :=
      match storedFavorites with
      | .list l => { s with favorites := l }
      | _ => s
    match response with
    | .throws => done s
    | .unreadable => done s
    | .ok meals =>
      let apiRecipes := meals.getD []
      match customRecipes with
      | .rejected => done s
      | .resolved .malformed => done s
      | .resolved customRecipesJSON =>
        let customRecipes : List Recipe :=
          match customRecipesJSON with
          | .list l => l
          | _ => []
        let allRecipes := apiRecipes ++ customRecipes
        done { s with
          recipes := allRecipes
          filteredRecipes := allRecipes
          categories := "All" :: uniqueCategories allRecipes }

/-- The filter effect (HomeScreen.js:92-110). -/
def filterEffect (toLowerCase : String → String) (s : State) : State :=
  { s with
    filteredRecipes := filterResults toLowerCase s.recipes s.searchTerm s.selectedCategory }

end HomeScreen

/-! ## FavoritesScreen.js -/

namespace FavoritesScreen

/-- The React state of the favourites screen (FavoritesScreen.js:40-45). -/
structure State where
  favorites : List Recipe
  filteredFavorites : List Recipe
  loading : Bool
  searchTerm : String
  categories : List String
  selectedCategory : String
deriving DecidableEq, Repr

/-- The initial values given to `useState` (FavoritesScreen.js:40-45). -/
def init : State :=
  { favorites := [], filteredFavorites := [], loading := true, searchTerm := "",
    categories := [], selectedCategory := "All" }

/-- The mount effect `fetchFavorites` (FavoritesScreen.js:49-76). -/
def fetchFavorites (favoriteRecipes : GetItem) (s : State) : State :=
  let done (s : State) : State := { s with loading := false }
  match favoriteRecipes with
  | .rejected => done s
  | .resolved .malformed => done s
  | .resolved (.list parsedFavorites) =>
    done { s with
      favorites := parsedFavorites
      filteredFavorites := parsedFavorites
      categories := "All" :: uniqueCategories parsedFavorites }
  | .resolved _ => done s

/-- Membership test `isFavorite` (FavoritesScreen.js:98-104). -/
def isFavorite (favorites : List Recipe) (recipe : Recipe) : Bool :=
  favorites.any fun fav =>
    (truthy fav.idMeal && truthy recipe.idMeal && (fav.idMeal == recipe.idMeal)) ||
    (truthy fav.id && truthy recipe.id && (fav.id == recipe.id))

/-- The list `updatedFavorites` that `toggleFavorite` computes before writing
it (FavoritesScreen.js:108-118). -/
def updatedFavorites (favorites : List Recipe) (recipe : Recipe) : List Recipe :=
  if isFavorite favorites recipe then
    favorites.filter fun fav =>
      !(truthy fav.idMeal && truthy recipe.idMeal && (fav.idMeal == recipe.idMeal)) &&
      !(truthy fav.id && truthy recipe.id && (fav.id == recipe.id))
  else
    favorites ++ [recipe]

/-- The handler `toggleFavorite` (FavoritesScreen.js:106-128); see
`HomeScreen.toggleFavorite`. -/
def toggleFavorite (setItemOk : Bool) (s : State) (recipe : Recipe) :
    Option (List Recipe) × State :=
  let updated := updatedFavorites s.favorites recipe
  if setItemOk then
    (some updated, { s with favorites := updated })
  else
    (none, s)

end FavoritesScreen

/-! ## RecipeDetailScreen.js -/

namespace RecipeDetailScreen

/-- The React state of the detail screen (RecipeDetailScreen.js:18-19); the
record shown is the route parameter `recipe`. -/
structure State where
  isFavorite : Bool
  loading : Bool
deriving DecidableEq, Repr

/-- The initial values given to `useState` (RecipeDetailScreen.js:18-19). -/
def init : State :=
  { isFavorite := false, loading := false }

/-- The mount effect `checkIfFavorite` (RecipeDetailScreen.js:48-67). -/
def checkIfFavorite (favoritesJSON : GetItem) (recipe : Recipe) (s : State) : State :=
  match favoritesJSON with
  | .resolved (.list favorites) =>
    let isRecipeFavorite := favorites.any fun fav =>
      (truthy fav.idMeal && truthy recipe.idMeal && (fav.idMeal == recipe.idMeal)) ||
      (truthy fav.id && truthy recipe.id && (fav.id == recipe.id))
    { s with isFavorite := isRecipeFavorite }
  | _ => s

/-- The handler `toggleFavorite` (RecipeDetailScreen.js:69-101). It reads the
key again, edits the list according to the cached flag `isFavorite`, writes the
list and flips the flag. The first component is the list written, if any. -/
def toggleFavorite (favoritesJSON : GetItem) (setItemOk : Bool) (recipe : Recipe)
    (s : State) : Option (List Recipe) × State :=
  let done (s : State) : State := { s with loading := false }
  match favoritesJSON with
  | .rejected => (none, done s)
  | .resolved .malformed => (none, done s)
  | .resolved stored =>
    let favorites : List Recipe :=
      match stored with
      | .list l => l
      | _ => []
    let favorites :=
      if s.isFavorite then
        favorites.filter fun fav =>
          !(truthy fav.idMeal && truthy recipe.idMeal && (fav.idMeal == recipe.idMeal)) &&
          !(truthy fav.id && truthy recipe.id && (fav.id == recipe.id))
      else
        favorites ++ [recipe]
    if setItemOk then
      (some favorites, done { s with isFavorite := !s.isFavorite })
    else
      (none, done s)

end RecipeDetailScreen

/-! ## One session over the shared `favoriteRecipes` key -/

/-- The key after a handler ran: replaced by the list written, if any. -/
def Stored.write (v : Stored) : Option (List Recipe) → Stored
  | some l => Stored.list l
  | none => v

/-- The `favoriteRecipes` key together with the mounted screens. The home
screen is the initial route and stays mounted under the detail screen. -/
structure Session where
  favoriteRecipes : Stored
  home : HomeScreen.State
  detail : Option (Recipe × RecipeDetailScreen.State)
deriving DecidableEq, Repr

/-- What the user does in a session. -/
inductive Action where
  /-- Press the heart of `recipe` on the home screen. -/
  | homeToggle (recipe : Recipe)
  /-- Open the detail screen of `recipe`. -/
  | openDetail (recipe : Recipe)
  /-- Press the heart on the open detail screen. -/
  | detailToggle
  /-- Go back to the home screen. -/
  | goBack
deriving DecidableEq, Repr

/-- One action, run to completion, every storage call succeeding. -/
def Session.step (σ : Session) : Action → Session
  | .homeToggle recipe =>
    let (written, home) := HomeScreen.toggleFavorite true σ.home recipe
    { σ with favoriteRecipes := σ.favoriteRecipes.write written, home := home }
  | .openDetail recipe =>
    { σ with
      detail := some (recipe,
        RecipeDetailScreen.checkIfFavorite (.resolved σ.favoriteRecipes) recipe
          RecipeDetailScreen.init) }
  | .detailToggle =>
    match σ.detail with
    | some (recipe, d) =>
      let (written, d) :=
        RecipeDetailScreen.toggleFavorite (.resolved σ.favoriteRecipes) true recipe d
      { σ with favoriteRecipes := σ.favoriteRecipes.write written, detail := some (recipe, d) }
    | none => σ
  | .goBack => { σ with detail := none }

/-- The session after the home screen mounted over the given key contents. -/
def Session.start (favoriteRecipes : Stored) (response : Fetch) (customRecipes : Stored) :
    Session :=
  { favoriteRecipes := favoriteRecipes
    home := HomeScreen.fetchRecipesAndCategories (.resolved favoriteRecipes) response
      (.resolved customRecipes) HomeScreen.init
    detail := none }

/-- Run a sequence of actions in order. -/
def Session.run (σ : Session) (actions : List Action) : Session :=
  actions.foldl Session.step σ

/-! ## RecipeDetailScreen.js: ingredients -/

/-- The function `getIngredients` (RecipeDetailScreen.js:29-44). An explicit
list, even an empty one, is truthy and is returned as it is; otherwise the loop
over `i = 1..20` pushes one entry for each `strIngredient_i` that is truthy and
whose trimmed value is truthy. -/
def RecipeDetailScreen.getIngredients (trim : String → String) (recipe : Recipe) :
    List Ingredient :=
  match recipe.ingredients with
  | some ingredients => ingredients
  | none =>
    (List.range' 1 20).foldl
      (fun ingredients i =>
        let ingredient := numbered recipe.strIngredient i
        let measure := numbered recipe.strMeasure i
        match ingredient with
        | some name =>
          if name ≠ "" ∧ trim name ≠ "" then
            ingredients ++ [{ name := name, measure := jsOrStr measure "" }]
          else ingredients
        | none => ingredients)
      []

/-- The filter effect of the favourites screen (FavoritesScreen.js:78-96). -/
def FavoritesScreen.filterEffect (toLowerCase : String → String) (s : FavoritesScreen.State) :
    FavoritesScreen.State :=
  { s with
    filteredFavorites :=
      filterResults toLowerCase s.favorites s.searchTerm s.selectedCategory }

/-! ## AddRecipeScreen.js -/

namespace AddRecipeScreen

/-- The state `recipe` of the form (AddRecipeScreen.js:40-49). -/
structure Form where
  id : String
  name : String
  category : String
  area : String
  instructions : String
  imageUri : String
  ingredients : List Ingredient
  isCustom : Bool
deriving DecidableEq, Repr

/-- The initial value given to `useState`; `now` is `Date.now().toString()`. -/
def init (now : String) : Form :=
  { id := now, name := "", category := "", area := "", instructions := "", imageUri := "",
    ingredients := [{ name := "", measure := "" }], isCustom := true }

/-- The record that `JSON.stringify` stores for a form state and that the other
screens read back. -/
def Form.toRecipe (recipe : Form) : Recipe :=
  { id := some recipe.id, name := some recipe.name, category := some recipe.category,
    area := some recipe.area, instructions := some recipe.instructions,
    imageUri := some recipe.imageUri, ingredients := some recipe.ingredients,
    isCustom := some recipe.isCustom }

/-- The function `validateForm` (AddRecipeScreen.js:123-148): `none` when it
returns `true`; otherwise the message of the alert it raises before returning
`false`. -/
def validateForm (trim : String → String) (recipe : Form) : Option String :=
  if trim recipe.name = "" then
    some "Veuillez entrer un nom pour la recette"
  else if recipe.category = "" then
    some "Veuillez sélectionner une catégorie"
  else if trim recipe.instructions = "" then
    some "Veuillez ajouter des instructions"
  else
    let validIngredients := recipe.ingredients.filter fun ing => trim ing.name != ""
    if validIngredients.length = 0 then
      some "Veuillez ajouter au moins un ingrédient"
    else
      none

/-- The handler `saveRecipe` (AddRecipeScreen.js:150-185). The first component
is the list written under `customRecipes`, if any; the second is the message of
the alert shown. A rejected `getItem` or `setItem` and a `JSON.parse` that
throws pass control to the `catch` block. -/
def saveRecipe (trim : String → String) (existingRecipesJSON : GetItem) (setItemOk : Bool)
    (recipe : Form) : Option (List Recipe) × String :=
  match validateForm trim recipe with
  | some alert => (none, alert)
  | none =>
    let failed : Option (List Recipe) × String :=
      (none, "Impossible de sauvegarder la recette")
    match existingRecipesJSON with
    | .rejected => failed
    | .resolved .malformed => failed
    | .resolved stored =>
      let existingRecipes : List Recipe :=
        match stored with
        | .list l => l
        | _ => []
      let validIngredients := recipe.ingredients.filter fun ing => trim ing.name != ""
      let recipeToSave : Form := { recipe with ingredients := validIngredients }
      let existingRecipes := existingRecipes ++ [recipeToSave.toRecipe]
      if setItemOk then
        (some existingRecipes, "Votre recette a été ajoutée avec succès!")
      else
        failed

end AddRecipeScreen

/-! ## AddRecipeScreen.js: the editable ingredient list -/

namespace AddRecipeScreen

/-- The keys the form passes to `handleIngredientChange`
(AddRecipeScreen.js:293, 302). -/
inductive IngredientKey where
  | name
  | measure
deriving DecidableEq, Repr

/-- The handler `handleIngredientChange` (AddRecipeScreen.js:69-79) for the
index of a row: the row is replaced by a copy with one field changed. An index
past the end would leave a sparse array, which a list cannot hold: `none`. -/
def handleIngredientChange (index : Nat) (key : IngredientKey) (value : String)
    (recipe : Form) : Option Form :=
  match recipe.ingredients.get? index with
  | some row =>
    let updated : Ingredient :=
      match key with
      | .name => { row with name := value }
      | .measure => { row with measure := value }
    some { recipe with ingredients := recipe.ingredients.set index updated }
  | none => none

/-- The handler `addIngredient` (AddRecipeScreen.js:81-86). -/
def addIngredient (recipe : Form) : Form :=
  { recipe with ingredients := recipe.ingredients ++ [{ name := "", measure := "" }] }

/-- The handler `removeIngredient` (AddRecipeScreen.js:88-98): with more than
one row, keep the rows whose position differs from `index`. -/
def removeIngredient (index : Nat) (recipe : Form) : Form :=
  if recipe.ingredients.length > 1 then
    { recipe with
      ingredients := (recipe.ingredients.enum.filter fun p => p.1 != index).map Prod.snd }
  else
    recipe

/-- One edit of the ingredient list by the user. -/
inductive FormAction where
  | addIngredient
  | removeIngredient (index : Nat)
  | handleIngredientChange (index : Nat) (key : IngredientKey) (value : String)
deriving DecidableEq, Repr

/-- The form after one edit. -/
def step (recipe : Form) : FormAction → Option Form
  | .addIngredient => some (addIngredient recipe)
  | .removeIngredient index => some (removeIngredient index recipe)
  | .handleIngredientChange index key value => handleIngredientChange index key value recipe

/-- The form after a sequence of edits, each applied to the result of the one
before. -/
def run (recipe : Form) : List FormAction → Option Form
  | [] => some recipe
  | a :: rest =>
    match step recipe a with
    | some next => run next rest
    | none => none

/-- An edit whose row index, if it has one, is the index of a row. -/
def FormAction.Valid (recipe : Form) : FormAction → Prop
  | .addIngredient => True
  | .removeIngredient index => index < recipe.ingredients.length
  | .handleIngredientChange index _ _ => index < recipe.ingredients.length

end AddRecipeScreen

/-! ## Specification vocabulary -/

/-- The values of a list in order of first occurrence, each once. -/
def firstOccurrences : List String → List String
  | [] => []
  | x :: xs => x :: (firstOccurrences xs).filter fun y => y ≠ x

/-- The list a key stands for: its array, and the empty list when the key is
absent or empty. -/
def Stored.toList : Stored → List Recipe
  | .list l => l
  | _ => []

/-- The code points that `String.prototype.trim` strips: the ECMAScript
`WhiteSpace` and `LineTerminator` characters. -/
def isWhiteSpace (c : Char) : Bool :=
  c.toNat ∈ [0x9, 0xA, 0xB, 0xC, 0xD, 0x20, 0xA0, 0x1680, 0x2000, 0x2001, 0x2002, 0x2003,
    0x2004, 0x2005, 0x2006, 0x2007, 0x2008, 0x2009, 0x200A, 0x2028, 0x2029, 0x202F, 0x205F,
    0x3000, 0xFEFF]

/-- An instance of the parameter `trim`: strips white space at both ends. -/
def trimWhiteSpace (s : String) : String :=
  String.mk ((s.data.dropWhile isWhiteSpace).reverse.dropWhile isWhiteSpace).reverse

/-! ## Shared lemmas -/

theorem truthy_iff (a : Option String) : truthy a = true ↔ a ≠ none ∧ a ≠ some "" := by
  cases a with
  | none => simp [truthy]
  | some s => simp [truthy]

/-- The comparison written in `isFavorite` holds exactly for matching records. -/
theorem sameRecipe_iff (fav recipe : Recipe) :
    ((truthy fav.idMeal && truthy recipe.idMeal && (fav.idMeal == recipe.idMeal)) ||
      (truthy fav.id && truthy recipe.id && (fav.id == recipe.id))) = true ↔
      Matches fav recipe := by
  simp only [Bool.or_eq_true, Bool.and_eq_true, beq_iff_eq, truthy_iff, Matches]
  constructor
  · rintro (⟨⟨h1, _⟩, h3⟩ | ⟨⟨h1, _⟩, h3⟩)
    · exact Or.inl ⟨h1.1, h1.2, h3⟩
    · exact Or.inr ⟨h1.1, h1.2, h3⟩
  · rintro (⟨h1, h2, h3⟩ | ⟨h1, h2, h3⟩)
    · exact Or.inl ⟨⟨⟨h1, h2⟩, h3 ▸ ⟨h1, h2⟩⟩, h3⟩
    · exact Or.inr ⟨⟨⟨h1, h2⟩, h3 ▸ ⟨h1, h2⟩⟩, h3⟩

/-- The predicate written in the `filter` of `toggleFavorite` keeps exactly the
records that do not match. -/
theorem keepRecipe_iff (fav recipe : Recipe) :
    (!(truthy fav.idMeal && truthy recipe.idMeal && (fav.idMeal == recipe.idMeal)) &&
      !(truthy fav.id && truthy recipe.id && (fav.id == recipe.id))) = true ↔
      ¬ Matches fav recipe := by
  rw [← sameRecipe_iff]
  cases (truthy fav.idMeal && truthy recipe.idMeal && (fav.idMeal == recipe.idMeal)) <;>
    cases (truthy fav.id && truthy recipe.id && (fav.id == recipe.id)) <;> simp

theorem matches_self_iff (r : Recipe) : Matches r r ↔ HasIdentity r := by
  simp [Matches, HasIdentity]

theorem matches_symm {f r : Recipe} (h : Matches f r) : Matches r f := by
  rcases h with ⟨h1, h2, h3⟩ | ⟨h1, h2, h3⟩
  · exact Or.inl ⟨h3 ▸ h1, h3 ▸ h2, h3.symm⟩
  · exact Or.inr ⟨h3 ▸ h1, h3 ▸ h2, h3.symm⟩

theorem matches_iff_keyExtractor_eq {f r : Recipe}
    (h : (IsRemote f ∧ IsRemote r) ∨ (IsCustom f ∧ IsCustom r)) :
    Matches f r ↔ keyExtractor f = keyExtractor r := by
  unfold keyExtractor jsOr Matches
  rcases h with ⟨⟨ha, hb⟩, hc, hd⟩ | ⟨⟨hb, ha⟩, hd, hc⟩
  · rw [if_pos ((truthy_iff _).2 ha), if_pos ((truthy_iff _).2 hc)]
    constructor
    · rintro (⟨_, _, h⟩ | ⟨h1, h2, _⟩)
      · exact h
      · rcases hb with hb | hb
        · exact absurd hb h1
        · exact absurd hb h2
    · intro h; exact Or.inl ⟨ha.1, ha.2, h⟩
  · have na : ¬ truthy f.idMeal = true := by
      rw [truthy_iff]; rcases ha with ha | ha <;> simp [ha]
    have nc : ¬ truthy r.idMeal = true := by
      rw [truthy_iff]; rcases hc with hc | hc <;> simp [hc]
    rw [if_neg na, if_neg nc]
    constructor
    · rintro (⟨h1, h2, _⟩ | ⟨_, _, h⟩)
      · rcases ha with ha | ha
        · exact absurd ha h1
        · exact absurd ha h2
      · exact h
    · intro h; exact Or.inr ⟨hb.1, hb.2, h⟩

namespace HomeScreen

theorem isFavorite_iff (favorites : List Recipe) (recipe : Recipe) :
    isFavorite favorites recipe = true ↔ ∃ fav ∈ favorites, Matches fav recipe := by
  simp only [isFavorite, List.any_eq_true, sameRecipe_iff]

theorem updatedFavorites_eq (favorites : List Recipe) (recipe : Recipe) :
    updatedFavorites favorites recipe =
      if isFavorite favorites recipe = true then
        favorites.filter fun fav => decide (¬ Matches fav recipe)
      else favorites ++ [recipe] := by
  unfold updatedFavorites
  split
  · apply List.filter_congr
    intro fav _
    rw [Bool.eq_iff_iff, keepRecipe_iff]
    simp
  · rfl

theorem isFavorite_filter (favorites : List Recipe) (recipe : Recipe) :
    isFavorite (favorites.filter fun fav => decide (¬ Matches fav recipe)) recipe = false := by
  rw [Bool.eq_false_iff]
  intro h
  obtain ⟨fav, hmem, hm⟩ := (isFavorite_iff _ _).1 h
  have := (List.mem_filter.1 hmem).2
  simp at this
  exact this hm

theorem isFavorite_append_self (favorites : List Recipe) (recipe : Recipe)
    (h : HasIdentity recipe) : isFavorite (favorites ++ [recipe]) recipe = true := by
  rw [isFavorite_iff]
  exact ⟨recipe, by simp, (matches_self_iff recipe).2 h⟩

theorem isFavorite_updatedFavorites (favorites : List Recipe) (recipe : Recipe)
    (h : HasIdentity recipe) :
    isFavorite (updatedFavorites favorites recipe) recipe = !isFavorite favorites recipe := by
  rw [updatedFavorites_eq]
  by_cases hf : isFavorite favorites recipe = true
  · rw [if_pos hf, isFavorite_filter, hf]; rfl
  · rw [if_neg hf, isFavorite_append_self _ _ h]
    simp at hf
    rw [hf]; rfl

end HomeScreen

theorem FavoritesScreen.isFavorite_eq_home :
    FavoritesScreen.isFavorite = HomeScreen.isFavorite := rfl

theorem FavoritesScreen.updatedFavorites_eq_home :
    FavoritesScreen.updatedFavorites = HomeScreen.updatedFavorites := rfl

theorem HomeScreen.not_matches_of_not_isFavorite {favorites : List Recipe} {recipe : Recipe}
    (h : ¬ isFavorite favorites recipe = true) : ∀ fav ∈ favorites, ¬ Matches fav recipe :=
  fun fav hmem hm => h ((isFavorite_iff _ _).2 ⟨fav, hmem, hm⟩)

theorem HomeScreen.updatedFavorites_subset (favorites : List Recipe) (recipe : Recipe) :
    ∀ x ∈ updatedFavorites favorites recipe, x ∈ recipe :: favorites := by
  intro x hx
  rw [updatedFavorites_eq] at hx
  split at hx
  · exact List.mem_cons_of_mem _ (List.mem_filter.1 hx).1
  · simpa [or_comm] using hx

theorem HomeScreen.pairwise_updatedFavorites {favorites : List Recipe} (recipe : Recipe)
    (h : favorites.Pairwise fun a b => ¬ Matches a b) :
    (updatedFavorites favorites recipe).Pairwise fun a b => ¬ Matches a b := by
  rw [updatedFavorites_eq]
  split
  · exact h.filter _
  · next hf =>
    rw [List.pairwise_append]
    refine ⟨h, List.pairwise_singleton _ _, ?_⟩
    intro a ha b hb
    rw [List.mem_singleton] at hb
    subst hb
    exact not_matches_of_not_isFavorite hf a ha

theorem includes_iff (s t : String) : includes s t = true ↔ t.data <:+: s.data := by
  simp only [includes, List.any_eq_true, List.mem_tails, List.isPrefixOf_iff_prefix,
    List.infix_iff_prefix_suffix]
  constructor
  · rintro ⟨u, hu, ht⟩; exact ⟨u, ht, hu⟩
  · rintro ⟨u, ht, hu⟩; exact ⟨u, hu, ht⟩

theorem jsOrStr_jsOr (a b : Option String) :
    jsOrStr (jsOr a b) "" = firstNonEmpty [a, b] := by
  rcases a with _ | a <;> rcases b with _ | b <;>
    simp only [jsOr, jsOrStr, truthy, firstNonEmpty] <;> (repeat' split) <;> simp_all

theorem mem_filterResults (toLowerCase : String → String) (recipes : List Recipe)
    (q c : String) (r : Recipe) :
    r ∈ filterResults toLowerCase recipes q c ↔
      r ∈ recipes ∧
      (q = "" ∨
        (toLowerCase q).data <:+: (toLowerCase (firstNonEmpty [r.strMeal, r.name])).data) ∧
      (c = "All" ∨ firstNonEmpty [r.strCategory, r.category] = c) := by
  unfold filterResults
  by_cases hq : q = "" <;> by_cases hc : c = "All" <;>
    simp [hq, hc, List.mem_filter, includes_iff, jsOrStr_jsOr, and_assoc]
  intro _
  exact and_comm

theorem firstOccurrences_filter (p : String → Bool) (l : List String) :
    firstOccurrences (l.filter p) = (firstOccurrences l).filter p := by
  induction l with
  | nil => rfl
  | cons a l ih =>
    by_cases ha : p a = true
    · rw [List.filter_cons_of_pos ha]
      simp only [firstOccurrences]
      rw [List.filter_cons_of_pos ha, ih, List.filter_filter, List.filter_filter]
      congr 1
      apply List.filter_congr
      intro y _
      exact Bool.and_comm _ _
    · rw [List.filter_cons_of_neg ha]
      simp only [firstOccurrences]
      rw [List.filter_cons_of_neg ha, ih, List.filter_filter]
      apply List.filter_congr
      intro y _
      by_cases hy : p y = true
      · have : y ≠ a := fun h => ha (h ▸ hy)
        simp [hy, this]
      · simp [hy]

theorem foldl_newSet (xs seen : List String) :
    xs.foldl (fun seen x => if x ∈ seen then seen else seen ++ [x]) seen =
      seen ++ firstOccurrences (xs.filter fun x => decide (x ∉ seen)) := by
  induction xs generalizing seen with
  | nil => simp [firstOccurrences]
  | cons x xs ih =>
    rw [List.foldl_cons]
    by_cases hx : x ∈ seen
    · rw [if_pos hx, ih, List.filter_cons_of_neg (by simpa using hx)]
    · rw [if_neg hx, ih, List.filter_cons_of_pos (by simpa using hx)]
      simp only [firstOccurrences, List.append_assoc, List.singleton_append]
      rw [← firstOccurrences_filter, List.filter_filter]
      congr 3
      apply List.filter_congr
      intro y _
      simp [List.mem_append, not_or, and_comm]

theorem newSet_eq (xs : List String) : newSet xs = firstOccurrences xs := by
  unfold newSet
  rw [foldl_newSet]
  simp

theorem mem_firstOccurrences (xs : List String) (c : String) :
    c ∈ firstOccurrences xs ↔ c ∈ xs := by
  induction xs with
  | nil => simp [firstOccurrences]
  | cons x xs ih =>
    simp only [firstOccurrences, List.mem_cons, List.mem_filter, ih]
    by_cases h : c = x <;> simp [h]

theorem firstOccurrences_nodup (xs : List String) : (firstOccurrences xs).Nodup := by
  induction xs with
  | nil => simp [firstOccurrences]
  | cons x xs ih =>
    simp only [firstOccurrences, List.nodup_cons]
    exact ⟨by simp [List.mem_filter], ih.filter _⟩

theorem categoryValues_eq (l : List Recipe) :
    ((l.filter fun recipe => truthy (jsOr recipe.strCategory recipe.category)).map
        fun recipe => (jsOr recipe.strCategory recipe.category).getD "") =
      (l.map fun r => firstNonEmpty [r.strCategory, r.category]).filter fun c => c ≠ "" := by
  induction l with
  | nil => rfl
  | cons r l ih =>
    simp only [List.filter_cons, List.map_cons]
    rw [← ih]
    rcases hc : r.strCategory with _ | a <;> rcases hd : r.category with _ | b <;>
      simp only [jsOr, truthy, firstNonEmpty] <;> (repeat' split) <;> simp_all

theorem uniqueCategories_eq (l : List Recipe) :
    uniqueCategories l =
      firstOccurrences
        ((l.map fun r => firstNonEmpty [r.strCategory, r.category]).filter fun c => c ≠ "") := by
  unfold uniqueCategories
  rw [newSet_eq, categoryValues_eq]

theorem HomeScreen.fetch_ok_recipes (favs custom : Stored) (meals : Option (List Recipe))
    (s : State) (hf : favs ≠ Stored.malformed) (hc : custom ≠ Stored.malformed) :
    (fetchRecipesAndCategories (GetItem.resolved favs) (Fetch.ok meals)
        (GetItem.resolved custom) s).recipes = meals.getD [] ++ custom.toList := by
  cases favs <;> cases custom <;> first | contradiction | rfl

theorem HomeScreen.fetch_ok_categories (favs custom : Stored) (meals : Option (List Recipe))
    (s : State) (hf : favs ≠ Stored.malformed) (hc : custom ≠ Stored.malformed) :
    (fetchRecipesAndCategories (GetItem.resolved favs) (Fetch.ok meals)
        (GetItem.resolved custom) s).categories =
      "All" :: uniqueCategories (meals.getD [] ++ custom.toList) := by
  cases favs <;> cases custom <;> first | contradiction | rfl

theorem foldl_push {α β : Type} (p : α → Bool) (f : α → β) (l : List α) (acc : List β) :
    l.foldl (fun acc i => if p i = true then acc ++ [f i] else acc) acc =
      acc ++ (l.filter p).map f := by
  induction l generalizing acc with
  | nil => simp
  | cons a l ih =>
    rw [List.foldl_cons, ih]
    by_cases h : p a = true
    · simp [h]
    · simp [h]

theorem RecipeDetailScreen.getIngredients_of_none (trim : String → String) (recipe : Recipe)
    (h : recipe.ingredients = none) :
    getIngredients trim recipe =
      ((List.range' 1 20).filter fun i =>
          match numbered recipe.strIngredient i with
          | some name => decide (name ≠ "" ∧ trim name ≠ "")
          | none => false).map
        fun i =>
          { name := (numbered recipe.strIngredient i).getD "",
            measure := (numbered recipe.strMeasure i).getD "" } := by
  unfold getIngredients
  rw [h]
  simp only
  rw [← List.nil_append (List.map _ _), ← foldl_push]
  congr 1
  funext acc i
  rcases hn : numbered recipe.strIngredient i with _ | name
  · simp
  · rcases hm : numbered recipe.strMeasure i with _ | m
    · by_cases hc : name ≠ "" ∧ trim name ≠ "" <;> simp [hc, jsOrStr]
    · by_cases hc : name ≠ "" ∧ trim name ≠ "" <;> by_cases hm0 : m = "" <;>
        simp [hc, jsOrStr, hm0]

theorem AddRecipeScreen.validIngredients_length (trim : String → String)
    (ingredients : List Ingredient) :
    (ingredients.filter fun ing => trim ing.name != "").length = 0 ↔
      ¬ ∃ ing ∈ ingredients, trim ing.name ≠ "" := by
  rw [List.length_eq_zero, List.filter_eq_nil_iff]
  simp

theorem AddRecipeScreen.validateForm_eq_none (trim : String → String) (recipe : Form) :
    validateForm trim recipe = none ↔
      trim recipe.name ≠ "" ∧ recipe.category ≠ "" ∧ trim recipe.instructions ≠ "" ∧
        ∃ ing ∈ recipe.ingredients, trim ing.name ≠ "" := by
  unfold validateForm
  by_cases h1 : trim recipe.name = ""
  · simp [h1]
  by_cases h2 : recipe.category = ""
  · simp [h1, h2]
  by_cases h3 : trim recipe.instructions = ""
  · simp [h1, h2, h3]
  simp only [if_neg h1, if_neg h2, if_neg h3, validIngredients_length]
  by_cases h4 : ∃ ing ∈ recipe.ingredients, trim ing.name ≠ ""
  · simp [h1, h2, h3, h4]
  · simp [h1, h2, h3, h4]

theorem AddRecipeScreen.saveRecipe_of_invalid (trim : String → String)
    (existingRecipesJSON : GetItem) (setItemOk : Bool) (recipe : Form)
    (h : validateForm trim recipe ≠ none) :
    (saveRecipe trim existingRecipesJSON setItemOk recipe).1 = none := by
  unfold saveRecipe
  rcases hv : validateForm trim recipe with _ | alert
  · exact absurd hv h
  · rfl

theorem AddRecipeScreen.saveRecipe_of_valid (trim : String → String) (stored : Stored)
    (recipe : Form) (hs : stored ≠ Stored.malformed) (h : validateForm trim recipe = none) :
    saveRecipe trim (GetItem.resolved stored) true recipe =
      (some (stored.toList ++
          [Form.toRecipe
            { recipe with
              ingredients := recipe.ingredients.filter fun ing => trim ing.name != "" }]),
        "Votre recette a été ajoutée avec succès!") := by
  unfold saveRecipe
  rw [h]
  cases stored <;> first | contradiction | rfl

theorem AddRecipeScreen.saveRecipe_of_malformed (trim : String → String) (setItemOk : Bool)
    (recipe : Form) (h : validateForm trim recipe = none) :
    saveRecipe trim (GetItem.resolved Stored.malformed) setItemOk recipe =
      (none, "Impossible de sauvegarder la recette") := by
  unfold saveRecipe
  rw [h]

theorem filterResults_eq_filter (toLowerCase : String → String) (recipes : List Recipe)
    (q c : String) :
    filterResults toLowerCase recipes q c =
      recipes.filter fun recipe =>
        (decide (q = "") ||
          includes (toLowerCase (jsOrStr (jsOr recipe.strMeal recipe.name) ""))
            (toLowerCase q)) &&
        (decide (c = "All") ||
          (jsOrStr (jsOr recipe.strCategory recipe.category) "" == c)) := by
  unfold filterResults
  by_cases hq : q = "" <;> by_cases hc : c = "All" <;>
    simp [hq, hc, List.filter_filter, Bool.and_comm]

theorem filterResults_idem (toLowerCase : String → String) (recipes : List Recipe)
    (q c : String) :
    filterResults toLowerCase (filterResults toLowerCase recipes q c) q c =
      filterResults toLowerCase recipes q c := by
  rw [filterResults_eq_filter, filterResults_eq_filter, List.filter_filter]
  apply List.filter_congr
  intro r _
  exact Bool.and_self _

theorem filterResults_sublist (toLowerCase : String → String) (recipes : List Recipe)
    (q c : String) : (filterResults toLowerCase recipes q c).Sublist recipes := by
  rw [filterResults_eq_filter]
  exact List.filter_sublist _

theorem HomeScreen.isFavorite_of_no_identity (favorites : List Recipe) (recipe : Recipe)
    (h : ¬ HasIdentity recipe) : isFavorite favorites recipe = false := by
  rw [Bool.eq_false_iff]
  intro hf
  obtain ⟨fav, _, hm⟩ := (isFavorite_iff _ _).1 hf
  exact h ((matches_self_iff recipe).1 (by
    rcases hm with ⟨h1, h2, h3⟩ | ⟨h1, h2, h3⟩
    · exact Or.inl ⟨h3 ▸ h1, h3 ▸ h2, rfl⟩
    · exact Or.inr ⟨h3 ▸ h1, h3 ▸ h2, rfl⟩))

theorem filter_enumFrom_ne (l : List Ingredient) (n i : Nat) :
    ((l.enumFrom n).filter fun p => p.1 != n + i).map Prod.snd = l.eraseIdx i := by
  induction l generalizing n i with
  | nil => rfl
  | cons a l ih =>
    cases i with
    | zero =>
      have hall : ((l.enumFrom (n + 1)).filter fun p => p.1 != n + 0) = l.enumFrom (n + 1) := by
        rw [List.filter_eq_self]
        intro p hp
        have := List.le_fst_of_mem_enumFrom hp
        simp only [bne_iff_ne, ne_eq]
        omega
      simp only [List.enumFrom_cons, List.eraseIdx_cons_zero]
      rw [List.filter_cons_of_neg (by simp), hall, List.enumFrom_map_snd]
    | succ i =>
      simp only [List.enumFrom_cons, List.eraseIdx_cons_succ]
      rw [List.filter_cons_of_pos (by simp), List.map_cons]
      have := ih (n + 1) i
      rw [show n + 1 + i = n + (i + 1) by omega] at this
      rw [this]

theorem AddRecipeScreen.removeIngredient_ingredients (index : Nat) (recipe : Form)
    (h : 1 < recipe.ingredients.length) :
    (removeIngredient index recipe).ingredients = recipe.ingredients.eraseIdx index := by
  unfold removeIngredient
  rw [if_pos h]
  have := filter_enumFrom_ne recipe.ingredients 0 index
  rw [Nat.zero_add] at this
  exact this

theorem AddRecipeScreen.handleIngredientChange_of_lt (index : Nat) (key : IngredientKey)
    (value : String) (recipe : Form) (h : index < recipe.ingredients.length) :
    ∃ next, handleIngredientChange index key value recipe = some next ∧
      next.ingredients.length = recipe.ingredients.length := by
  unfold handleIngredientChange
  rw [List.get?_eq_get h]
  exact ⟨_, rfl, by simp⟩

theorem AddRecipeScreen.step_length (recipe next : Form) (a : FormAction)
    (hpos : 1 ≤ recipe.ingredients.length) (h : step recipe a = some next) :
    1 ≤ next.ingredients.length := by
  cases a with
  | addIngredient =>
    simp only [step, Option.some.injEq] at h
    subst h
    simp [addIngredient]
  | removeIngredient index =>
    simp only [step, Option.some.injEq] at h
    subst h
    by_cases hl : 1 < recipe.ingredients.length
    · rw [removeIngredient_ingredients index recipe hl, List.length_eraseIdx]
      split <;> omega
    · unfold removeIngredient
      rw [if_neg (by omega)]
      exact hpos
  | handleIngredientChange index key value =>
    simp only [step, handleIngredientChange] at h
    split at h
    · simp only [Option.some.injEq] at h
      subst h
      simpa using hpos
    · exact absurd h (by simp)

theorem AddRecipeScreen.run_length (actions : List FormAction) (recipe next : Form)
    (hpos : 1 ≤ recipe.ingredients.length) (h : run recipe actions = some next) :
    1 ≤ next.ingredients.length := by
  induction actions generalizing recipe with
  | nil =>
    simp only [run, Option.some.injEq] at h
    subst h
    exact hpos
  | cons a rest ih =>
    simp only [run] at h
    split at h
    · next mid hmid => exact ih mid (step_length recipe mid a hpos hmid) h
    · exact absurd h (by simp)

theorem AddRecipeScreen.step_of_valid (recipe : Form) (a : FormAction)
    (h : FormAction.Valid recipe a) : ∃ next, step recipe a = some next := by
  cases a with
  | addIngredient => exact ⟨_, rfl⟩
  | removeIngredient index => exact ⟨_, rfl⟩
  | handleIngredientChange index key value =>
    obtain ⟨next, hn, _⟩ := handleIngredientChange_of_lt index key value recipe h
    exact ⟨next, hn⟩

theorem matches_trans_of_single {f r s : Recipe} (hf : IsRemote f ∨ IsCustom f)
    (hr : Matches f r) (hs : Matches f s) : Matches r s := by
  rcases hf with ⟨_, hid⟩ | ⟨_, hid⟩
  · rcases hr with ⟨h1, h2, h3⟩ | ⟨h1, h2, _⟩
    · rcases hs with ⟨_, _, k3⟩ | ⟨k1, k2, _⟩
      · exact Or.inl ⟨h3 ▸ h1, h3 ▸ h2, h3.symm.trans k3⟩
      · rcases hid with hid | hid
        · exact absurd hid k1
        · exact absurd hid k2
    · rcases hid with hid | hid
      · exact absurd hid h1
      · exact absurd hid h2
  · rcases hr with ⟨h1, h2, _⟩ | ⟨h1, h2, h3⟩
    · rcases hid with hid | hid
      · exact absurd hid h1
      · exact absurd hid h2
    · rcases hs with ⟨k1, k2, _⟩ | ⟨_, _, k3⟩
      · rcases hid with hid | hid
        · exact absurd hid k1
        · exact absurd hid k2
      · exact Or.inr ⟨h3 ▸ h1, h3 ▸ h2, h3.symm.trans k3⟩

theorem HomeScreen.isFavorite_updatedFavorites_other (favorites : List Recipe)
    (r s : Recipe) (hrs : ¬ Matches r s)
    (hboth : isFavorite favorites r = true →
      ∀ f ∈ favorites, ¬ (Matches f r ∧ Matches f s)) :
    isFavorite (updatedFavorites favorites r) s = isFavorite favorites s := by
  rw [Bool.eq_iff_iff, isFavorite_iff, isFavorite_iff, updatedFavorites_eq]
  by_cases hf : isFavorite favorites r = true
  · rw [if_pos hf]
    constructor
    · rintro ⟨f, hmem, hm⟩
      exact ⟨f, (List.mem_filter.1 hmem).1, hm⟩
    · rintro ⟨f, hmem, hm⟩
      refine ⟨f, List.mem_filter.2 ⟨hmem, ?_⟩, hm⟩
      have := hboth hf f hmem
      simpa using fun hr => this ⟨hr, hm⟩
  · rw [if_neg hf]
    constructor
    · rintro ⟨f, hmem, hm⟩
      rcases List.mem_append.1 hmem with h | h
      · exact ⟨f, h, hm⟩
      · rw [List.mem_singleton] at h
        subst h
        exact absurd hm hrs
    · rintro ⟨f, hmem, hm⟩
      exact ⟨f, List.mem_append_left _ hmem, hm⟩

/-! ## Favourites: membership and toggle -/

/-- C1: for every favourites list and every record that has an identity,
toggling flips membership. -/
theorem toggle_flips_membership (favs : List Recipe) (r : Recipe) (h : HasIdentity r) :
    HomeScreen.isFavorite (HomeScreen.updatedFavorites favs r) r =
      !HomeScreen.isFavorite favs r :=
  HomeScreen.isFavorite_updatedFavorites favs r h

/-- Witness for C1: toggling a remote record into a list that holds another. -/
theorem toggle_flips_membership_witness :
    HasIdentity { idMeal := some "52772" } ∧
    HomeScreen.isFavorite
        (HomeScreen.updatedFavorites [{ id := some "c1" }] { idMeal := some "52772" })
        { idMeal := some "52772" } =
      !HomeScreen.isFavorite [{ id := some "c1" }] { idMeal := some "52772" } :=
  ⟨by decide, toggle_flips_membership [{ id := some "c1" }] { idMeal := some "52772" }
    (by decide)⟩

/-- Counterexample for C2: a stored remote record `idMeal = "5"` and a queried
custom record `id = "5"` have the same identity, yet the query is not a
favourite. -/
theorem isFavorite_not_by_identity :
    ¬ (HomeScreen.isFavorite [{ idMeal := some "5" }] { id := some "5" } = true ↔
        ∃ f ∈ [({ idMeal := some "5" } : Recipe)],
          keyExtractor f = keyExtractor { id := some "5" }) := by
  decide

/-- C2 (amended): `isFavorite` is true exactly when some stored record matches
the query field by field (equal non-empty `idMeal`, or equal non-empty `id`);
only these two fields of the query take part; and for two records of the same
schema matching is the same as having equal identities. -/
theorem isFavorite_iff_matches (favs : List Recipe) (r : Recipe) :
    (HomeScreen.isFavorite favs r = true ↔ ∃ f ∈ favs, Matches f r) ∧
    (∀ r' : Recipe, r'.idMeal = r.idMeal → r'.id = r.id →
      HomeScreen.isFavorite favs r' = HomeScreen.isFavorite favs r) ∧
    (∀ f : Recipe, (IsRemote f ∧ IsRemote r) ∨ (IsCustom f ∧ IsCustom r) →
      (Matches f r ↔ keyExtractor f = keyExtractor r)) := by
  refine ⟨HomeScreen.isFavorite_iff favs r, ?_, fun f h => matches_iff_keyExtractor_eq h⟩
  intro r' h1 h2
  simp only [HomeScreen.isFavorite, h1, h2]

/-- Witness for C2 (amended): a stored custom record is found by its `id`. -/
theorem isFavorite_iff_matches_witness :
    HomeScreen.isFavorite [{ idMeal := some "5" }, { id := some "c1" }]
        { id := some "c1", name := some "Cake" } = true ↔
      ∃ f ∈ [({ idMeal := some "5" } : Recipe), { id := some "c1" }],
        Matches f { id := some "c1", name := some "Cake" } :=
  (isFavorite_iff_matches [{ idMeal := some "5" }, { id := some "c1" }]
    { id := some "c1", name := some "Cake" }).1

/-- C3: when the record is a favourite, the toggled list is the old list with
exactly the matching elements removed, order kept, so no match remains; when it
is not, the toggled list is the old list followed by the record. Both screens
compute the same list, and a toggle whose write succeeds stores and keeps it. -/
theorem toggle_removes_or_appends (favs : List Recipe) (r : Recipe) :
    (HomeScreen.isFavorite favs r = true →
      HomeScreen.updatedFavorites favs r = favs.filter (fun f => decide (¬ Matches f r)) ∧
      ∀ f ∈ HomeScreen.updatedFavorites favs r, ¬ Matches f r) ∧
    (HomeScreen.isFavorite favs r = false →
      HomeScreen.updatedFavorites favs r = favs ++ [r]) ∧
    FavoritesScreen.updatedFavorites favs r = HomeScreen.updatedFavorites favs r ∧
    (∀ s : HomeScreen.State, s.favorites = favs →
      (HomeScreen.toggleFavorite true s r).1 = some (HomeScreen.updatedFavorites favs r) ∧
      (HomeScreen.toggleFavorite true s r).2.favorites = HomeScreen.updatedFavorites favs r) := by
  refine ⟨?_, ?_, rfl, ?_⟩
  · intro h
    rw [HomeScreen.updatedFavorites_eq, if_pos h]
    refine ⟨rfl, fun f hf => ?_⟩
    simpa using (List.mem_filter.1 hf).2
  · intro h
    rw [HomeScreen.updatedFavorites_eq, if_neg (by simp [h])]
  · rintro s rfl
    exact ⟨rfl, rfl⟩

/-- Witness for C3: two stored entries match the record and both are removed;
the entry between them stays. -/
theorem toggle_removes_or_appends_witness :
    HomeScreen.isFavorite
        [{ idMeal := some "1", strMeal := some "Soup" }, { id := some "c1" },
          { idMeal := some "1" }] { idMeal := some "1" } = true ∧
    HomeScreen.updatedFavorites
        [{ idMeal := some "1", strMeal := some "Soup" }, { id := some "c1" },
          { idMeal := some "1" }] { idMeal := some "1" } = [{ id := some "c1" }] :=
  ⟨by decide,
   (((toggle_removes_or_appends
      [{ idMeal := some "1", strMeal := some "Soup" }, { id := some "c1" },
        { idMeal := some "1" }] { idMeal := some "1" }).1 (by decide)).1).trans (by decide)⟩

/-- Counterexample for C4: the list holding the remote record `idMeal = "5"`
has no duplicate identity, the custom record `id = "5"` has an identity, and
after the toggle both are stored with the same identity `"5"`. -/
theorem toggle_duplicates_identity :
    ¬ (([({ idMeal := some "5" } : Recipe)].Pairwise
          fun a b => keyExtractor a ≠ keyExtractor b) →
        HasIdentity { id := some "5" } →
        (HomeScreen.updatedFavorites [{ idMeal := some "5" }] { id := some "5" }).Pairwise
          fun a b => keyExtractor a ≠ keyExtractor b) := by
  decide

/-- C4 (amended): if no two elements of the favourites list match each other,
then no two elements of the toggled list match each other; and when all the
records are of one schema (all remote or all custom) a list without duplicate
identities stays without duplicate identities. -/
theorem toggle_preserves_no_match (favs : List Recipe) (r : Recipe) :
    ((favs.Pairwise fun a b => ¬ Matches a b) →
      (HomeScreen.updatedFavorites favs r).Pairwise fun a b => ¬ Matches a b) ∧
    (((∀ x ∈ r :: favs, IsRemote x) ∨ (∀ x ∈ r :: favs, IsCustom x)) →
      (favs.Pairwise fun a b => keyExtractor a ≠ keyExtractor b) →
      (HomeScreen.updatedFavorites favs r).Pairwise
        fun a b => keyExtractor a ≠ keyExtractor b) := by
  refine ⟨HomeScreen.pairwise_updatedFavorites r, ?_⟩
  intro hs hp
  have key : ∀ a ∈ r :: favs, ∀ b ∈ r :: favs,
      (Matches a b ↔ keyExtractor a = keyExtractor b) := by
    intro a ha b hb
    apply matches_iff_keyExtractor_eq
    rcases hs with hs | hs
    · exact Or.inl ⟨hs a ha, hs b hb⟩
    · exact Or.inr ⟨hs a ha, hs b hb⟩
  have hp' : favs.Pairwise fun a b => ¬ Matches a b :=
    hp.imp_of_mem fun {a b} ha hb hne hm =>
      hne ((key a (List.mem_cons_of_mem _ ha) b (List.mem_cons_of_mem _ hb)).1 hm)
  exact (HomeScreen.pairwise_updatedFavorites r hp').imp_of_mem fun {a b} ha hb hnm he =>
    hnm ((key a (HomeScreen.updatedFavorites_subset _ _ a ha) b
      (HomeScreen.updatedFavorites_subset _ _ b hb)).2 he)

/-- Witness for C4 (amended): adding a second remote record to a list of one. -/
theorem toggle_preserves_no_match_witness :
    ([({ idMeal := some "1" } : Recipe)].Pairwise fun a b => ¬ Matches a b) ∧
    (HomeScreen.updatedFavorites [{ idMeal := some "1" }] { idMeal := some "2" }).Pairwise
      fun a b => ¬ Matches a b :=
  ⟨by decide,
   (toggle_preserves_no_match [{ idMeal := some "1" }] { idMeal := some "2" }).1 (by decide)⟩

/-- C5: for a record that has an identity, two toggles in a row restore the
original membership state. -/
theorem toggle_twice_restores_membership (favs : List Recipe) (r : Recipe)
    (h : HasIdentity r) :
    FavoritesScreen.isFavorite
        (FavoritesScreen.updatedFavorites (FavoritesScreen.updatedFavorites favs r) r) r =
      FavoritesScreen.isFavorite favs r := by
  rw [FavoritesScreen.isFavorite_eq_home, FavoritesScreen.updatedFavorites_eq_home,
    HomeScreen.isFavorite_updatedFavorites _ _ h, HomeScreen.isFavorite_updatedFavorites _ _ h,
    Bool.not_not]

/-- Witness for C5: a custom record toggled twice on a list that holds it. -/
theorem toggle_twice_restores_membership_witness :
    HasIdentity { id := some "c1" } ∧
    FavoritesScreen.isFavorite
        (FavoritesScreen.updatedFavorites
          (FavoritesScreen.updatedFavorites [{ id := some "c1" }] { id := some "c1" })
          { id := some "c1" }) { id := some "c1" } =
      FavoritesScreen.isFavorite [{ id := some "c1" }] { id := some "c1" } :=
  ⟨by decide, toggle_twice_restores_membership [{ id := some "c1" }] { id := some "c1" }
    (by decide)⟩

/-! ## Favourites: persistence -/

/-- C6, evaluated at the failing input: the key starts as the empty list and
the home screen mounts; the user adds recipe 1 on the detail screen, goes back
and adds recipe 2 on the home screen. The key ends as `[2]`, whereas applying
the two toggles one after the other to the empty list gives `[1, 2]`. -/
theorem home_toggle_overwrites_detail_toggle :
    ((Session.start (Stored.list []) (Fetch.ok none) Stored.missing).run
        [Action.openDetail { idMeal := some "1" }, Action.detailToggle, Action.goBack,
          Action.homeToggle { idMeal := some "2" }]).favoriteRecipes =
      Stored.list [{ idMeal := some "2" }] ∧
    HomeScreen.updatedFavorites (HomeScreen.updatedFavorites [] { idMeal := some "1" })
        { idMeal := some "2" } =
      [{ idMeal := some "1" }, { idMeal := some "2" }] := by
  decide

/-- Counterexample for C7: the write of a toggle on the empty list fails, and
the list in memory afterwards is not the toggled list. -/
theorem failed_write_not_attempted_state :
    ¬ ((HomeScreen.toggleFavorite false HomeScreen.init { idMeal := some "1" }).2.favorites =
        HomeScreen.updatedFavorites HomeScreen.init.favorites { idMeal := some "1" }) := by
  decide

/-- C7 (amended): when the write of a toggle fails, nothing is written and the
screen state, with its favourites list, is as it was before the toggle. -/
theorem failed_write_keeps_state (r : Recipe) :
    (∀ s : HomeScreen.State, HomeScreen.toggleFavorite false s r = (none, s)) ∧
    (∀ s : FavoritesScreen.State, FavoritesScreen.toggleFavorite false s r = (none, s)) :=
  ⟨fun _ => rfl, fun _ => rfl⟩

/-- C8: on the initial load a missing `favoriteRecipes` key leaves the
favourites empty, and so does a value that cannot be parsed; in that case the
load still ends with `loading` cleared. This holds on the home screen, whatever
the fetch and the `customRecipes` key give, and on the favourites screen. -/
theorem load_favorites_fail_safe (response : Fetch) (customRecipes : GetItem) :
    (HomeScreen.fetchRecipesAndCategories (GetItem.resolved Stored.missing) response
        customRecipes HomeScreen.init).favorites = [] ∧
    (HomeScreen.fetchRecipesAndCategories (GetItem.resolved Stored.malformed) response
        customRecipes HomeScreen.init).favorites = [] ∧
    (HomeScreen.fetchRecipesAndCategories (GetItem.resolved Stored.malformed) response
        customRecipes HomeScreen.init).loading = false ∧
    (FavoritesScreen.fetchFavorites (GetItem.resolved Stored.missing)
        FavoritesScreen.init).favorites = [] ∧
    (FavoritesScreen.fetchFavorites (GetItem.resolved Stored.malformed)
        FavoritesScreen.init).favorites = [] ∧
    (FavoritesScreen.fetchFavorites (GetItem.resolved Stored.malformed)
        FavoritesScreen.init).loading = false := by
  refine ⟨?_, rfl, rfl, rfl, rfl, rfl⟩
  rcases response with _ | _ | meals
  · rfl
  · rfl
  · rcases customRecipes with _ | (_ | _ | _ | l) <;> rfl

/-! ## Aggregation -/

/-- Counterexample for C9: the fetch throws while `customRecipes` holds one
recipe; the working collection after the load is not that stored list. -/
theorem fetch_failure_drops_custom :
    ¬ ((HomeScreen.fetchRecipesAndCategories (GetItem.resolved Stored.missing) Fetch.throws
          (GetItem.resolved (Stored.list [{ id := some "c1", name := some "Cake" }]))
          HomeScreen.init).recipes =
        [{ id := some "c1", name := some "Cake" }]) := by
  decide

/-- C9 (amended): when the fetch throws or its body cannot be read, the load
stops there: the working collection and the visible list stay empty and the
facet list stays empty, for every content of both keys, and `loading` is
cleared. -/
theorem fetch_failure_leaves_empty (favoriteRecipes customRecipes : GetItem) :
    (HomeScreen.fetchRecipesAndCategories favoriteRecipes Fetch.throws customRecipes
        HomeScreen.init).recipes = [] ∧
    (HomeScreen.fetchRecipesAndCategories favoriteRecipes Fetch.unreadable customRecipes
        HomeScreen.init).recipes = [] ∧
    (HomeScreen.fetchRecipesAndCategories favoriteRecipes Fetch.throws customRecipes
        HomeScreen.init).loading = false ∧
    (HomeScreen.fetchRecipesAndCategories favoriteRecipes Fetch.unreadable customRecipes
        HomeScreen.init).loading = false := by
  rcases favoriteRecipes with _ | (_ | _ | _ | l) <;> exact ⟨rfl, rfl, rfl, rfl⟩

/-! ## Filtering -/

/-- C10: a record is in the visible list computed by the filter effect exactly
when it is in the collection, the query is empty or the lower-cased title
contains the lower-cased query, and the selected category is "All" or equals
the record's category; with an empty query and "All" the visible list is the
whole collection. -/
theorem filter_visible_iff (toLowerCase : String → String) (s : HomeScreen.State)
    (r : Recipe) :
    (r ∈ (HomeScreen.filterEffect toLowerCase s).filteredRecipes ↔
      r ∈ s.recipes ∧
      (s.searchTerm = "" ∨
        (toLowerCase s.searchTerm).data <:+:
          (toLowerCase (firstNonEmpty [r.strMeal, r.name])).data) ∧
      (s.selectedCategory = "All" ∨
        firstNonEmpty [r.strCategory, r.category] = s.selectedCategory)) ∧
    (HomeScreen.filterEffect toLowerCase
        { s with searchTerm := "", selectedCategory := "All" }).filteredRecipes = s.recipes :=
  ⟨mem_filterResults toLowerCase s.recipes s.searchTerm s.selectedCategory r, rfl⟩

/-! ## Facets -/

/-- C11: the facet values are the non-empty categories of the records
(`strCategory` if non-empty, else `category`) in order of first occurrence, each
once, compared as strings; a record without a category contributes nothing; the
facet list of both screens is "All" followed by these values. -/
theorem facets_first_occurrences (allRecipes : List Recipe) :
    uniqueCategories allRecipes =
      firstOccurrences
        ((allRecipes.map fun r => firstNonEmpty [r.strCategory, r.category]).filter
          fun c => c ≠ "") ∧
    (uniqueCategories allRecipes).Nodup ∧
    (∀ c, c ∈ uniqueCategories allRecipes ↔
      c ≠ "" ∧ ∃ r ∈ allRecipes, firstNonEmpty [r.strCategory, r.category] = c) ∧
    (∀ (favs custom : Stored) (meals : Option (List Recipe)) (s : HomeScreen.State),
      favs ≠ Stored.malformed → custom ≠ Stored.malformed →
      meals.getD [] ++ custom.toList = allRecipes →
      (HomeScreen.fetchRecipesAndCategories (GetItem.resolved favs) (Fetch.ok meals)
        (GetItem.resolved custom) s).categories = "All" :: uniqueCategories allRecipes) ∧
    (∀ s : FavoritesScreen.State,
      (FavoritesScreen.fetchFavorites (GetItem.resolved (Stored.list allRecipes)) s).categories =
        "All" :: uniqueCategories allRecipes) := by
  refine ⟨uniqueCategories_eq allRecipes, ?_, ?_, ?_, fun _ => rfl⟩
  · rw [uniqueCategories_eq]
    exact firstOccurrences_nodup _
  · intro c
    rw [uniqueCategories_eq, mem_firstOccurrences]
    simp only [List.mem_filter, List.mem_map, decide_eq_true_eq]
    constructor
    · rintro ⟨h, hc⟩; exact ⟨hc, h⟩
    · rintro ⟨hc, h⟩; exact ⟨h, hc⟩
  · intro favs custom meals s hf hc hall
    rw [HomeScreen.fetch_ok_categories favs custom meals s hf hc, hall]

/-- Witness for C11: a remote record of category "Seafood" and a custom record
of category "Dessert" give the facets "All", "Seafood", "Dessert". -/
theorem facets_first_occurrences_witness :
    (HomeScreen.fetchRecipesAndCategories (GetItem.resolved Stored.missing)
        (Fetch.ok (some [{ idMeal := some "52772", strCategory := some "Seafood" }]))
        (GetItem.resolved (Stored.list [{ id := some "c1", category := some "Dessert" }]))
        HomeScreen.init).categories = ["All", "Seafood", "Dessert"] :=
  ((facets_first_occurrences
      [{ idMeal := some "52772", strCategory := some "Seafood" },
        { id := some "c1", category := some "Dessert" }]).2.2.2.1
    Stored.missing (Stored.list [{ id := some "c1", category := some "Dessert" }])
    (some [{ idMeal := some "52772", strCategory := some "Seafood" }]) HomeScreen.init
    (by decide) (by decide) (by decide)).trans (by decide)

/-! ## Ingredients -/

/-- C12: a record that carries an explicit ingredient list gets that list; any
other record gets, in strictly ascending index order, one entry for each index
from 1 to 20 whose `strIngredient` is present and non-empty after trimming, the
entry holding that name and the `strMeasure` of the same index, or the empty
string when there is none. -/
theorem getIngredients_spec (trim : String → String) (htrim : trim "" = "")
    (recipe : Recipe) :
    (∀ l, recipe.ingredients = some l →
      RecipeDetailScreen.getIngredients trim recipe = l) ∧
    (recipe.ingredients = none →
      ∃ idxs : List Nat,
        idxs.Pairwise (fun i j => i < j) ∧
        (∀ i, i ∈ idxs ↔
          1 ≤ i ∧ i ≤ 20 ∧
            ∃ name, numbered recipe.strIngredient i = some name ∧ trim name ≠ "") ∧
        RecipeDetailScreen.getIngredients trim recipe =
          idxs.map fun i =>
            { name := (numbered recipe.strIngredient i).getD "",
              measure := (numbered recipe.strMeasure i).getD "" }) := by
  constructor
  · intro l h
    simp [RecipeDetailScreen.getIngredients, h]
  · intro h
    refine ⟨_, ?_, ?_, RecipeDetailScreen.getIngredients_of_none trim recipe h⟩
    · exact (List.pairwise_lt_range' 1 20).filter _
    · intro i
      rw [List.mem_filter, List.mem_range'_1]
      rcases hn : numbered recipe.strIngredient i with _ | name
      · simp
      · have : trim name ≠ "" → name ≠ "" := fun h1 h2 => h1 (h2 ▸ htrim)
        simp only [Option.some.injEq, exists_eq_left', decide_eq_true_eq]
        constructor
        · rintro ⟨⟨h1, h2⟩, _, h3⟩; exact ⟨h1, by omega, h3⟩
        · rintro ⟨h1, h2, h3⟩; exact ⟨⟨h1, by omega⟩, this h3, h3⟩

/-- Witness for C12: `strIngredient1 = "Salt"`, `strIngredient2` empty and
`strIngredient3 = "Pepper"` give the entries Salt, then Pepper. -/
theorem getIngredients_spec_witness :
    trimWhiteSpace "" = "" ∧
    RecipeDetailScreen.getIngredients trimWhiteSpace
        { strIngredient := [some "Salt", some "", some "Pepper"],
          strMeasure := [some "1 tsp"] } =
      [{ name := "Salt", measure := "1 tsp" }, { name := "Pepper", measure := "" }] ∧
    RecipeDetailScreen.getIngredients trimWhiteSpace
        { ingredients := some [{ name := "Flour", measure := "200 g" }],
          strIngredient := [some "Salt"] } =
      [{ name := "Flour", measure := "200 g" }] :=
  ⟨by decide, by decide,
   (getIngredients_spec trimWhiteSpace (by decide)
      { ingredients := some [{ name := "Flour", measure := "200 g" }],
        strIngredient := [some "Salt"] }).1 _ rfl⟩

/-! ## Custom recipes: validation and append -/

/-- C13: the form is accepted exactly when the trimmed name is non-empty, the
category is non-empty, the trimmed instructions are non-empty and some
ingredient has a non-empty trimmed name. A rejected form gets the error of the
first rule it violates, in the order name, category, instructions, ingredients;
the four errors are pairwise distinct and each names its field. -/
theorem validateForm_spec (trim : String → String) (recipe : AddRecipeScreen.Form) :
    (AddRecipeScreen.validateForm trim recipe = none ↔
      trim recipe.name ≠ "" ∧ recipe.category ≠ "" ∧ trim recipe.instructions ≠ "" ∧
        ∃ ing ∈ recipe.ingredients, trim ing.name ≠ "") ∧
    (trim recipe.name = "" →
      AddRecipeScreen.validateForm trim recipe =
        some "Veuillez entrer un nom pour la recette") ∧
    (trim recipe.name ≠ "" → recipe.category = "" →
      AddRecipeScreen.validateForm trim recipe =
        some "Veuillez sélectionner une catégorie") ∧
    (trim recipe.name ≠ "" → recipe.category ≠ "" → trim recipe.instructions = "" →
      AddRecipeScreen.validateForm trim recipe =
        some "Veuillez ajouter des instructions") ∧
    (trim recipe.name ≠ "" → recipe.category ≠ "" → trim recipe.instructions ≠ "" →
      (¬ ∃ ing ∈ recipe.ingredients, trim ing.name ≠ "") →
      AddRecipeScreen.validateForm trim recipe =
        some "Veuillez ajouter au moins un ingrédient") ∧
    ["Veuillez entrer un nom pour la recette", "Veuillez sélectionner une catégorie",
      "Veuillez ajouter des instructions", "Veuillez ajouter au moins un ingrédient"].Nodup ∧
    includes "Veuillez entrer un nom pour la recette" "nom" = true ∧
    includes "Veuillez sélectionner une catégorie" "catégorie" = true ∧
    includes "Veuillez ajouter des instructions" "instructions" = true ∧
    includes "Veuillez ajouter au moins un ingrédient" "ingrédient" = true := by
  refine ⟨AddRecipeScreen.validateForm_eq_none trim recipe, ?_, ?_, ?_, ?_, by decide,
    by decide, by decide, by decide, by decide⟩
  · intro h1
    simp [AddRecipeScreen.validateForm, h1]
  · intro h1 h2
    simp [AddRecipeScreen.validateForm, h1, h2]
  · intro h1 h2 h3
    simp [AddRecipeScreen.validateForm, h1, h2, h3]
  · intro h1 h2 h3 h4
    unfold AddRecipeScreen.validateForm
    simp only [if_neg h1, if_neg h2, if_neg h3]
    rw [if_pos ((AddRecipeScreen.validIngredients_length trim _).2 h4)]

/-- Witness for C13: a form whose only violation is blank instructions gets
the instructions error. -/
theorem validateForm_spec_witness :
    AddRecipeScreen.validateForm trimWhiteSpace
        { id := "1700000000000", name := "Cake", category := "Dessert", area := "",
          instructions := "  ", imageUri := "",
          ingredients := [{ name := "Flour", measure := "200 g" }], isCustom := true } =
      some "Veuillez ajouter des instructions" :=
  (validateForm_spec trimWhiteSpace
    { id := "1700000000000", name := "Cake", category := "Dessert", area := "",
      instructions := "  ", imageUri := "",
      ingredients := [{ name := "Flour", measure := "200 g" }], isCustom := true }).2.2.2.1
    (by decide) (by decide) (by decide)

/-- C14: for a form that fails validation, `saveRecipe` writes nothing,
whatever the key holds and whatever the storage calls would do: the
`customRecipes` key after the call is the key before it. -/
theorem saveRecipe_invalid_no_write (trim : String → String) (recipe : AddRecipeScreen.Form)
    (customRecipes : Stored) (existingRecipesJSON : GetItem) (setItemOk : Bool)
    (h : AddRecipeScreen.validateForm trim recipe ≠ none) :
    (AddRecipeScreen.saveRecipe trim existingRecipesJSON setItemOk recipe).1 = none ∧
    customRecipes.write
        (AddRecipeScreen.saveRecipe trim existingRecipesJSON setItemOk recipe).1 =
      customRecipes ∧
    (customRecipes.write
        (AddRecipeScreen.saveRecipe trim existingRecipesJSON setItemOk recipe).1).toList.length =
      customRecipes.toList.length := by
  rw [AddRecipeScreen.saveRecipe_of_invalid trim existingRecipesJSON setItemOk recipe h]
  exact ⟨rfl, rfl, rfl⟩

/-- Witness for C14: a form with blank instructions, saved over a key that
holds one recipe. -/
theorem saveRecipe_invalid_no_write_witness :
    (Stored.list [{ id := some "c1", name := some "Soup" }]).write
        (AddRecipeScreen.saveRecipe trimWhiteSpace
          (GetItem.resolved (Stored.list [{ id := some "c1", name := some "Soup" }])) true
          { id := "1700000000000", name := "Cake", category := "Dessert", area := "",
            instructions := "", imageUri := "",
            ingredients := [{ name := "Flour", measure := "200 g" }], isCustom := true }).1 =
      Stored.list [{ id := some "c1", name := some "Soup" }] :=
  (saveRecipe_invalid_no_write trimWhiteSpace
    { id := "1700000000000", name := "Cake", category := "Dessert", area := "",
      instructions := "", imageUri := "",
      ingredients := [{ name := "Flour", measure := "200 g" }], isCustom := true }
    (Stored.list [{ id := some "c1", name := some "Soup" }])
    (GetItem.resolved (Stored.list [{ id := some "c1", name := some "Soup" }])) true
    (by decide)).2.1

/-- C15: for a valid form and a parsable key (an absent key counting as the
empty list), a `saveRecipe` whose write succeeds stores the old list followed by
one record: the form's fields with `isCustom`, and as ingredients the form's
ingredients without the rows whose trimmed name is empty, in their order. The
stored ingredients all have a non-empty trimmed name and are not empty. -/
theorem saveRecipe_appends (trim : String → String) (recipe : AddRecipeScreen.Form)
    (customRecipes : Stored) (hs : customRecipes ≠ Stored.malformed)
    (h : AddRecipeScreen.validateForm trim recipe = none) :
    (customRecipes.write
        (AddRecipeScreen.saveRecipe trim (GetItem.resolved customRecipes) true recipe).1) =
      Stored.list (customRecipes.toList ++
        [{ id := some recipe.id, isCustom := some recipe.isCustom, name := some recipe.name,
           category := some recipe.category, area := some recipe.area,
           instructions := some recipe.instructions, imageUri := some recipe.imageUri,
           ingredients := some (recipe.ingredients.filter fun ing => trim ing.name != "") }]) ∧
    (recipe.ingredients.filter fun ing => trim ing.name != "").Sublist recipe.ingredients ∧
    (∀ ing, ing ∈ (recipe.ingredients.filter fun ing => trim ing.name != "") ↔
      ing ∈ recipe.ingredients ∧ trim ing.name ≠ "") ∧
    (recipe.ingredients.filter fun ing => trim ing.name != "") ≠ [] ∧
    Stored.missing.toList = [] ∧
    (AddRecipeScreen.init recipe.id).isCustom = true := by
  refine ⟨?_, List.filter_sublist _, ?_, ?_, rfl, rfl⟩
  · rw [AddRecipeScreen.saveRecipe_of_valid trim customRecipes recipe hs h]
    rfl
  · intro ing
    simp [List.mem_filter]
  · obtain ⟨ing, hmem, hne⟩ := ((AddRecipeScreen.validateForm_eq_none trim recipe).1 h).2.2.2
    intro hnil
    have : ing ∈ recipe.ingredients.filter fun ing => trim ing.name != "" := by
      simp [List.mem_filter, hmem, hne]
    rw [hnil] at this
    exact List.not_mem_nil _ this

/-- Witness for C15: a valid form with one placeholder row, saved over a key
that holds one recipe. -/
theorem saveRecipe_appends_witness :
    (Stored.list [{ id := some "c1", name := some "Soup" }]).write
        (AddRecipeScreen.saveRecipe trimWhiteSpace
          (GetItem.resolved (Stored.list [{ id := some "c1", name := some "Soup" }])) true
          { id := "1700000000000", name := "Cake", category := "Dessert", area := "",
            instructions := "Bake.", imageUri := "",
            ingredients := [{ name := " ", measure := "" }, { name := "Flour", measure := "200 g" }],
            isCustom := true }).1 =
      Stored.list [{ id := some "c1", name := some "Soup" },
        { id := some "1700000000000", isCustom := some true, name := some "Cake",
          category := some "Dessert", area := some "", instructions := some "Bake.",
          imageUri := some "",
          ingredients := some [{ name := "Flour", measure := "200 g" }] }] :=
  ((saveRecipe_appends trimWhiteSpace
    { id := "1700000000000", name := "Cake", category := "Dessert", area := "",
      instructions := "Bake.", imageUri := "",
      ingredients := [{ name := " ", measure := "" }, { name := "Flour", measure := "200 g" }],
      isCustom := true }
    (Stored.list [{ id := some "c1", name := some "Soup" }]) (by decide) (by decide)).1).trans
    (by decide)

/-- Counterexample for C16: the key holds a value that cannot be parsed and the
form is valid; `saveRecipe` writes nothing, so the key does not end up holding
exactly the new record. -/
theorem saveRecipe_corrupt_not_empty :
    ¬ ((AddRecipeScreen.saveRecipe trimWhiteSpace (GetItem.resolved Stored.malformed) true
          { id := "1700000000000", name := "Cake", category := "Dessert", area := "",
            instructions := "Bake.", imageUri := "",
            ingredients := [{ name := "Flour", measure := "200 g" }], isCustom := true }).1 =
        some [{ id := some "1700000000000", isCustom := some true, name := some "Cake",
                category := some "Dessert", area := some "", instructions := some "Bake.",
                imageUri := some "",
                ingredients := some [{ name := "Flour", measure := "200 g" }] }]) := by
  decide

/-- C16 (amended): when the key holds a value that cannot be parsed, saving a
valid form fails: nothing is written, the key keeps its value, and the alert
shown is the save error. -/
theorem saveRecipe_corrupt_fails (trim : String → String) (recipe : AddRecipeScreen.Form)
    (setItemOk : Bool) (h : AddRecipeScreen.validateForm trim recipe = none) :
    AddRecipeScreen.saveRecipe trim (GetItem.resolved Stored.malformed) setItemOk recipe =
      (none, "Impossible de sauvegarder la recette") ∧
    Stored.malformed.write
        (AddRecipeScreen.saveRecipe trim (GetItem.resolved Stored.malformed) setItemOk
          recipe).1 = Stored.malformed := by
  rw [AddRecipeScreen.saveRecipe_of_malformed trim setItemOk recipe h]
  exact ⟨rfl, rfl⟩

/-- Witness for C16 (amended): a valid form saved over an unparsable key. -/
theorem saveRecipe_corrupt_fails_witness :
    AddRecipeScreen.saveRecipe trimWhiteSpace (GetItem.resolved Stored.malformed) true
        { id := "1700000000000", name := "Cake", category := "Dessert", area := "",
          instructions := "Bake.", imageUri := "",
          ingredients := [{ name := "Flour", measure := "200 g" }], isCustom := true } =
      (none, "Impossible de sauvegarder la recette") :=
  (saveRecipe_corrupt_fails trimWhiteSpace
    { id := "1700000000000", name := "Cake", category := "Dessert", area := "",
      instructions := "Bake.", imageUri := "",
      ingredients := [{ name := "Flour", measure := "200 g" }], isCustom := true }
    true (by decide)).1

/-! ## Records without an identity -/

/-- Counterexample for C17: a record with a title and neither `idMeal` nor `id`
is toggled on the empty list; it is then in the list kept in memory and in the
list written. -/
theorem toggle_stores_record_without_identity :
    ¬ (¬ HasIdentity { strMeal := some "Soup" } →
        ({ strMeal := some "Soup" } : Recipe) ∉
          (HomeScreen.toggleFavorite true HomeScreen.init { strMeal := some "Soup" }).2.favorites ∧
        ({ strMeal := some "Soup" } : Recipe) ∉
          ((HomeScreen.toggleFavorite true HomeScreen.init
            { strMeal := some "Soup" }).1).getD []) := by
  decide

/-- C17 (amended): a record without an identity is never a favourite, and a
toggle appends it: the list written and kept in memory is the old list followed
by the record. -/
theorem toggle_appends_record_without_identity (favs : List Recipe) (r : Recipe)
    (h : ¬ HasIdentity r) :
    HomeScreen.isFavorite favs r = false ∧
    HomeScreen.updatedFavorites favs r = favs ++ [r] ∧
    (∀ s : HomeScreen.State, s.favorites = favs →
      HomeScreen.toggleFavorite true s r =
        (some (favs ++ [r]), { s with favorites := favs ++ [r] })) := by
  have hf := HomeScreen.isFavorite_of_no_identity favs r h
  have hu : HomeScreen.updatedFavorites favs r = favs ++ [r] := by
    rw [HomeScreen.updatedFavorites_eq, if_neg (by simp [hf])]
  refine ⟨hf, hu, ?_⟩
  rintro s rfl
  simp only [HomeScreen.toggleFavorite, hu, if_true]

/-- Witness for C17 (amended): the record is appended a second time, since the
stored copy does not match it. -/
theorem toggle_appends_record_without_identity_witness :
    HomeScreen.updatedFavorites [{ strMeal := some "Soup" }] { strMeal := some "Soup" } =
      [{ strMeal := some "Soup" }] ++ [{ strMeal := some "Soup" }] :=
  (toggle_appends_record_without_identity [{ strMeal := some "Soup" }]
    { strMeal := some "Soup" } (by decide)).2.1

/-! ## Filtering: algebra -/

/-- C18: filtering the filtered list again with the same query and category
gives the same list, on the home screen and on the favourites screen. -/
theorem filter_idempotent (toLowerCase : String → String) (recipes : List Recipe)
    (q c : String) :
    filterResults toLowerCase (filterResults toLowerCase recipes q c) q c =
      filterResults toLowerCase recipes q c ∧
    (∀ s : HomeScreen.State, s.recipes = recipes → s.searchTerm = q →
      s.selectedCategory = c →
      (HomeScreen.filterEffect toLowerCase
          { s with recipes := (HomeScreen.filterEffect toLowerCase s).filteredRecipes
          }).filteredRecipes =
        (HomeScreen.filterEffect toLowerCase s).filteredRecipes) ∧
    (∀ s : FavoritesScreen.State, s.favorites = recipes → s.searchTerm = q →
      s.selectedCategory = c →
      (FavoritesScreen.filterEffect toLowerCase
          { s with favorites := (FavoritesScreen.filterEffect toLowerCase s).filteredFavorites
          }).filteredFavorites =
        (FavoritesScreen.filterEffect toLowerCase s).filteredFavorites) := by
  refine ⟨filterResults_idem toLowerCase recipes q c, ?_, ?_⟩
  · rintro s rfl rfl rfl
    exact filterResults_idem toLowerCase _ _ _
  · rintro s rfl rfl rfl
    exact filterResults_idem toLowerCase _ _ _

/-- Witness for C18: the query "so" with category "Starter" on two records. -/
theorem filter_idempotent_witness :
    filterResults (fun t => t)
        (filterResults (fun t => t)
          [{ idMeal := some "1", strMeal := some "soup", strCategory := some "Starter" },
            { id := some "c1", name := some "cake", category := some "Dessert" }]
          "so" "Starter") "so" "Starter" =
      [{ idMeal := some "1", strMeal := some "soup", strCategory := some "Starter" }] :=
  ((filter_idempotent (fun t => t)
    [{ idMeal := some "1", strMeal := some "soup", strCategory := some "Starter" },
      { id := some "c1", name := some "cake", category := some "Dessert" }]
    "so" "Starter").1).trans (by decide)

/-- C19: the visible list is a sublist of the collection: the records kept
stand in their original relative order, none altered, none repeated. -/
theorem filter_stable (toLowerCase : String → String) (s : HomeScreen.State) :
    ((HomeScreen.filterEffect toLowerCase s).filteredRecipes).Sublist s.recipes :=
  filterResults_sublist toLowerCase s.recipes s.searchTerm s.selectedCategory

/-! ## Aggregation: successful load -/

/-- C20: when the fetch succeeds and both keys are read and parsed without
error, the working collection is the remote entries followed by the custom
entries, in their orders and without deduplication; its length is the sum of
the two lengths; `meals = null` and an absent `customRecipes` key count as empty
lists. -/
theorem aggregate_concat (favs custom : Stored) (meals : Option (List Recipe))
    (s : HomeScreen.State) (hf : favs ≠ Stored.malformed) (hc : custom ≠ Stored.malformed) :
    (HomeScreen.fetchRecipesAndCategories (GetItem.resolved favs) (Fetch.ok meals)
        (GetItem.resolved custom) s).recipes = meals.getD [] ++ custom.toList ∧
    (HomeScreen.fetchRecipesAndCategories (GetItem.resolved favs) (Fetch.ok meals)
        (GetItem.resolved custom) s).recipes.length =
      (meals.getD []).length + custom.toList.length ∧
    (∀ l : List Recipe,
      (HomeScreen.fetchRecipesAndCategories (GetItem.resolved favs) (Fetch.ok none)
        (GetItem.resolved (Stored.list l)) s).recipes = l) ∧
    (∀ m : List Recipe,
      (HomeScreen.fetchRecipesAndCategories (GetItem.resolved favs) (Fetch.ok (some m))
        (GetItem.resolved Stored.missing) s).recipes = m) := by
  refine ⟨HomeScreen.fetch_ok_recipes favs custom meals s hf hc, ?_, ?_, ?_⟩
  · rw [HomeScreen.fetch_ok_recipes favs custom meals s hf hc, List.length_append]
  · intro l
    rw [HomeScreen.fetch_ok_recipes favs _ none s hf (by simp)]
    rfl
  · intro m
    rw [HomeScreen.fetch_ok_recipes favs _ (some m) s hf (by simp)]
    simp [Stored.toList]

/-- Witness for C20: one remote and one custom record that share the identity
string "7" are both kept. -/
theorem aggregate_concat_witness :
    (HomeScreen.fetchRecipesAndCategories (GetItem.resolved Stored.missing)
        (Fetch.ok (some [{ idMeal := some "7", strMeal := some "Soup" }]))
        (GetItem.resolved (Stored.list [{ id := some "7", name := some "Cake" }]))
        HomeScreen.init).recipes =
      [{ idMeal := some "7", strMeal := some "Soup" }, { id := some "7", name := some "Cake" }] :=
  ((aggregate_concat Stored.missing (Stored.list [{ id := some "7", name := some "Cake" }])
    (some [{ idMeal := some "7", strMeal := some "Soup" }]) HomeScreen.init
    (by decide) (by decide)).1).trans (by decide)

/-! ## Favourites: other records and the detail screen -/

/-- Counterexample for C21: the stored record has `idMeal = "1"` and `id = "7"`;
the record with `idMeal = "1"` and the record with `id = "7"` do not match each
other, yet toggling the first removes the stored record and the second stops
being a favourite. -/
theorem toggle_changes_other_record :
    ¬ (¬ Matches { idMeal := some "1" } { id := some "7" } →
        HomeScreen.isFavorite
            (HomeScreen.updatedFavorites [{ idMeal := some "1", id := some "7" }]
              { idMeal := some "1" }) { id := some "7" } =
          HomeScreen.isFavorite [{ idMeal := some "1", id := some "7" }] { id := some "7" }) := by
  decide

/-- C21 (amended): for records `r` and `s` that do not match each other,
toggling `r` leaves the favourite status of `s` unchanged when no stored record
matches both; this is so when every stored record is of one schema, and when
`r` is not a favourite. -/
theorem toggle_frame (favs : List Recipe) (r s : Recipe) (h : ¬ Matches r s) :
    ((∀ f ∈ favs, ¬ (Matches f r ∧ Matches f s)) →
      HomeScreen.isFavorite (HomeScreen.updatedFavorites favs r) s =
        HomeScreen.isFavorite favs s) ∧
    ((∀ f ∈ favs, IsRemote f ∨ IsCustom f) →
      HomeScreen.isFavorite (HomeScreen.updatedFavorites favs r) s =
        HomeScreen.isFavorite favs s) ∧
    (HomeScreen.isFavorite favs r = false →
      HomeScreen.isFavorite (HomeScreen.updatedFavorites favs r) s =
        HomeScreen.isFavorite favs s) := by
  refine ⟨fun hb => ?_, fun hs => ?_, fun hf => ?_⟩
  · exact HomeScreen.isFavorite_updatedFavorites_other favs r s h fun _ => hb
  · exact HomeScreen.isFavorite_updatedFavorites_other favs r s h fun _ f hmem hboth =>
      h (matches_trans_of_single (hs f hmem) hboth.1 hboth.2)
  · exact HomeScreen.isFavorite_updatedFavorites_other favs r s h fun hf' => by
      rw [hf] at hf'
      exact absurd hf' (by simp)

/-- Witness for C21 (amended): removing a remote record from a list of one
remote and one custom record leaves the custom record a favourite. -/
theorem toggle_frame_witness :
    HomeScreen.isFavorite
        (HomeScreen.updatedFavorites [{ idMeal := some "1" }, { id := some "c1" }]
          { idMeal := some "1" }) { id := some "c1" } =
      HomeScreen.isFavorite [{ idMeal := some "1" }, { id := some "c1" }] { id := some "c1" } :=
  (toggle_frame [{ idMeal := some "1" }, { id := some "c1" }] { idMeal := some "1" }
    { id := some "c1" } (by decide)).2.1 (by decide)

/-- C22: when the flag of the detail screen equals `isFavorite` of the stored
list, the list the detail screen writes is the list the home screen computes
and writes from the same list in memory; the flag set on mount is that
`isFavorite`. -/
theorem detail_toggle_agrees (L : List Recipe) (r : Recipe) (d : RecipeDetailScreen.State)
    (s : HomeScreen.State) (hflag : d.isFavorite = HomeScreen.isFavorite L r)
    (hs : s.favorites = L) :
    (RecipeDetailScreen.toggleFavorite (GetItem.resolved (Stored.list L)) true r d).1 =
      some (HomeScreen.updatedFavorites L r) ∧
    (RecipeDetailScreen.toggleFavorite (GetItem.resolved (Stored.list L)) true r d).1 =
      (HomeScreen.toggleFavorite true s r).1 ∧
    (RecipeDetailScreen.checkIfFavorite (GetItem.resolved (Stored.list L)) r
      RecipeDetailScreen.init).isFavorite = HomeScreen.isFavorite L r := by
  subst hs
  refine ⟨?_, ?_, rfl⟩
  · simp only [RecipeDetailScreen.toggleFavorite, hflag, HomeScreen.updatedFavorites, if_true]
  · simp only [RecipeDetailScreen.toggleFavorite, hflag, HomeScreen.toggleFavorite,
      HomeScreen.updatedFavorites, if_true]

/-- Witness for C22: the stored list holds the record and the flag is set. -/
theorem detail_toggle_agrees_witness :
    (RecipeDetailScreen.toggleFavorite
        (GetItem.resolved (Stored.list [{ idMeal := some "1" }, { id := some "c1" }])) true
        { idMeal := some "1" } { isFavorite := true, loading := false }).1 =
      some (HomeScreen.updatedFavorites [{ idMeal := some "1" }, { id := some "c1" }]
        { idMeal := some "1" }) :=
  (detail_toggle_agrees [{ idMeal := some "1" }, { id := some "c1" }] { idMeal := some "1" }
    { isFavorite := true, loading := false }
    { HomeScreen.init with favorites := [{ idMeal := some "1" }, { id := some "c1" }] }
    (by decide) rfl).1

/-- C23, evaluated at the failing input: the fetch returns one record whose
category is the string "All"; the facet list after the load holds "All" twice. -/
theorem facets_repeat_all :
    (HomeScreen.fetchRecipesAndCategories (GetItem.resolved Stored.missing)
        (Fetch.ok (some [{ idMeal := some "1", strMeal := some "Mix", strCategory := some "All" }]))
        (GetItem.resolved Stored.missing) HomeScreen.init).categories = ["All", "All"] ∧
    ¬ (HomeScreen.fetchRecipesAndCategories (GetItem.resolved Stored.missing)
        (Fetch.ok (some [{ idMeal := some "1", strMeal := some "Mix", strCategory := some "All" }]))
        (GetItem.resolved Stored.missing) HomeScreen.init).categories.Nodup := by
  decide

/-! ## The editable ingredient list -/

/-- C24: starting from the initial form, after any sequence of `addIngredient`,
`removeIngredient` and `handleIngredientChange` the ingredient list has at least
one row, and every edit with the index of a row is carried out;
`removeIngredient` on a list of more than one row removes the row at the index
and keeps the others in order, and on a list of one row changes nothing. -/
theorem ingredients_never_empty (now : String) :
    (∀ (actions : List AddRecipeScreen.FormAction) (recipe : AddRecipeScreen.Form),
      AddRecipeScreen.run (AddRecipeScreen.init now) actions = some recipe →
      1 ≤ recipe.ingredients.length) ∧
    (∀ (recipe : AddRecipeScreen.Form) (a : AddRecipeScreen.FormAction),
      AddRecipeScreen.FormAction.Valid recipe a →
      ∃ next, AddRecipeScreen.step recipe a = some next) ∧
    (∀ (recipe : AddRecipeScreen.Form) (i : Nat),
      1 < recipe.ingredients.length → i < recipe.ingredients.length →
      (AddRecipeScreen.removeIngredient i recipe).ingredients =
        recipe.ingredients.take i ++ recipe.ingredients.drop (i + 1) ∧
      (AddRecipeScreen.removeIngredient i recipe).ingredients.length + 1 =
        recipe.ingredients.length) ∧
    (∀ (recipe : AddRecipeScreen.Form) (i : Nat),
      recipe.ingredients.length = 1 → AddRecipeScreen.removeIngredient i recipe = recipe) := by
  refine ⟨?_, AddRecipeScreen.step_of_valid, ?_, ?_⟩
  · intro actions recipe h
    exact AddRecipeScreen.run_length actions (AddRecipeScreen.init now) recipe
      (by simp [AddRecipeScreen.init]) h
  · intro recipe i h1 hi
    rw [AddRecipeScreen.removeIngredient_ingredients i recipe h1]
    refine ⟨List.eraseIdx_eq_take_drop_succ _ _, ?_⟩
    rw [List.length_eraseIdx_of_lt hi]
    omega
  · intro recipe i h1
    unfold AddRecipeScreen.removeIngredient
    rw [if_neg (by omega)]

/-- Witness for C24: add a row, name it, remove the first row, then try to
remove the only row left. -/
theorem ingredients_never_empty_witness :
    AddRecipeScreen.run (AddRecipeScreen.init "1700000000000")
        [AddRecipeScreen.FormAction.addIngredient,
          AddRecipeScreen.FormAction.handleIngredientChange 1 AddRecipeScreen.IngredientKey.name
            "Salt",
          AddRecipeScreen.FormAction.removeIngredient 0,
          AddRecipeScreen.FormAction.removeIngredient 0] =
      some { AddRecipeScreen.init "1700000000000" with
        ingredients := [{ name := "Salt", measure := "" }] } ∧
    1 ≤ ({ AddRecipeScreen.init "1700000000000" with
        ingredients := [{ name := "Salt", measure := "" }] } :
          AddRecipeScreen.Form).ingredients.length :=
  ⟨by decide,
   (ingredients_never_empty "1700000000000").1
    [AddRecipeScreen.FormAction.addIngredient,
      AddRecipeScreen.FormAction.handleIngredientChange 1 AddRecipeScreen.IngredientKey.name
        "Salt",
      AddRecipeScreen.FormAction.removeIngredient 0,
      AddRecipeScreen.FormAction.removeIngredient 0]
    _ (by decide)⟩

end Recipes
